import Mathlib

/-!
Verification of the two hyperparameter-sweep drivers of the repository:
`user/grid_search.py` (exhaustive grid sweep over three reward weights) and
`user/grid_search_optuna.py` (guided-search objective over four reward
weights).  Python floats are modelled as exact rationals (`ℚ`); every value
appearing in the scripts is an exactly representable short decimal, and the
f-string rendering of such a float is its shortest decimal form, which
`pyFloatRepr` below computes.  The external collaborators (`train`, the file
system holding `monitor.csv`, the optuna service) are modelled as oracles
supplied to the definitions, so the theorems quantify over every possible
behaviour of those collaborators.
-/

set_option allowUnsafeReducibility true in
attribute [semireducible] Rat.add Rat.mul Rat.div Rat.sub Rat.neg Rat.inv Rat.ofScientific

namespace AI2

/-- `search_space` of `grid_search.py` lines 18-22: a mapping from the three
reward-weight dimension names to their candidate value lists. -/
structure SearchSpace where
  damage_interaction_reward : List ℚ
  danger_zone_reward : List ℚ
  penalize_attack_reward : List ℚ

/-- The literal search space declared in `grid_search.py` lines 18-22. -/
def search_space : SearchSpace :=
  { damage_interaction_reward := [0.5, 1.0]
    danger_zone_reward := [0.1, 0.5]
    penalize_attack_reward := [-0.1, -0.04] }

/-- One grid point: the loop variables `dmg, dz, atk` of line 24. -/
structure TrialParams where
  dmg : ℚ
  dz : ℚ
  atk : ℚ

deriving instance DecidableEq for TrialParams

/-- `itertools.product` over the three candidate lists in declaration order
(`grid_search.py` lines 24-28): `dmg` outermost, `dz` middle, `atk`
innermost. -/
def gridTrials : List TrialParams :=
  search_space.damage_interaction_reward.flatMap (fun dmg =>
    search_space.danger_zone_reward.flatMap (fun dz =>
      search_space.penalize_attack_reward.map (fun atk =>
        { dmg := dmg, dz := dz, atk := atk })))

/-- Least `k` with `10 ^ k` divisible by `d` (searched up to 20); the number
of decimal digits needed to write a fraction with denominator `d` exactly. -/
def pow10Exp (d : Nat) : Nat :=
  ((List.range 20).find? (fun k => 10 ^ k % d == 0)).getD 0

/-- Python `f"{x}"` for a float `x` prints the shortest decimal string that
round-trips; for a value that IS a short decimal (all values in these
scripts) that is exactly its minimal decimal expansion, with `.0` kept on
integral values. -/
def pyFloatRepr (q : ℚ) : String :=
  let sign := if q < 0 then "-" else ""
  let n := q.num.natAbs
  let k := pow10Exp q.den
  if k = 0 then sign ++ toString n ++ ".0"
  else
    let scaled := n * 10 ^ k / q.den
    let fpStr := toString (scaled % 10 ^ k)
    let pad := String.mk (List.replicate (k - fpStr.length) '0')
    sign ++ toString (scaled / 10 ^ k) ++ "." ++ pad ++ fpStr

/-- `save_path = f'checkpoints/gridsearch_d{dmg}_z{dz}_a{atk}'`
(`grid_search.py` line 43). -/
def save_path (p : TrialParams) : String :=
  "checkpoints/gridsearch_d" ++ pyFloatRepr p.dmg ++ "_z" ++ pyFloatRepr p.dz
    ++ "_a" ++ pyFloatRepr p.atk

/-- A line of a text file, already split at the commas: the list of its
cell strings. -/
abbrev CsvLine := List String

/-- The file system after a training call: path → contents, `none` meaning
`os.path.exists` is false at that path. -/
def FileSystem := String → Option (List CsvLine)

/-- Outcome of the external `train(...)` call for one trial: it either
raises (`crash`) or returns, leaving some file system behind. -/
inductive TrainResult where
  | crash
  | ok (fs : FileSystem)

/-- Numeric value of one decimal digit, `none` on a non-digit. -/
def digitVal (c : Char) : Option Nat :=
  if c.isDigit then some (c.toNat - 48) else none

/-- A digit string read as a natural number; `none` if any character is not
a digit (the empty list reads as 0 and is rejected by the caller). -/
def parseDigits (l : List Char) : Option Nat :=
  l.foldl (fun acc c => acc.bind (fun n => (digitVal c).map (fun d => 10 * n + d))) (some 0)

/-- An unsigned decimal numeral (`"12"`, `"0.04"`) as an exact rational;
`none` on anything else. -/
def parseDecimal (l : List Char) : Option ℚ :=
  match l.span (fun c => c != '.') with
  | (ip, []) =>
    if ip.isEmpty then none
    else (parseDigits ip).map (fun n => (n : ℚ))
  | (ip, _ :: fp) =>
    if ip.isEmpty && fp.isEmpty then none
    else
      (parseDigits ip).bind (fun n =>
        (parseDigits fp).map (fun f =>
          mkRat (n * 10 ^ fp.length + f) (10 ^ fp.length)))

/-- `pandas` numeric conversion of one CSV cell, restricted to plain decimal
numerals (the only form the scripts' logs contain); a cell that does not
parse becomes NaN, which `mean` skips. -/
def parseCell (s : String) : Option ℚ :=
  match s.data with
  | '-' :: rest => (parseDecimal rest).map (fun q => -q)
  | l => parseDecimal l

/-- `Series.mean()` over the parsed (non-NaN) entries: their sum divided by
their count (pandas skips NaN entries by default). -/
def mean (l : List ℚ) : ℚ := l.sum / (l.length : ℚ)

/-- `pd.read_csv(path, skiprows=1)`: drop exactly one preamble line, read
the next line as the header and the rest as data rows.  `none` models the
`pandas.errors.EmptyDataError` exception raised when no line is left. -/
def read_csv_skip1 (lines : List CsvLine) : Option (CsvLine × List CsvLine) :=
  match lines.drop 1 with
  | [] => none
  | header :: rows => some (header, rows)

/-- `df[c]` followed by numeric conversion: the parsed entries of column
`c`.  `none` models the `KeyError` exception when the header lacks `c`;
missing or unparsable cells are NaN and are dropped (skipped by `mean`). -/
def parsedColumn (header : CsvLine) (rows : List CsvLine) (c : String) : Option (List ℚ) :=
  (header.findIdx? (fun h => h == c)).map (fun i =>
    rows.filterMap (fun row => (row.get? i).bind parseCell))

/-- `os.path.join(save_path, "monitor.csv")` in `grid_search.py` line 68. -/
def grid_log_path (sp : String) : String := sp ++ "/monitor.csv"

/-- `os.path.join(save_path, "monitor.csv")` in `grid_search_optuna.py`
line 78. -/
def optuna_log_path (sp : String) : String := sp ++ "/monitor.csv"

/-- `grid_search.py` lines 70-71: `df = pd.read_csv(log_path, skiprows=1)`
then `df['r'].mean()`; `none` = an exception raised by these two lines. -/
def grid_existing_log_score (lines : List CsvLine) : Option ℚ :=
  (read_csv_skip1 lines).bind (fun df => (parsedColumn df.1 df.2 "r").map mean)

/-- `grid_search_optuna.py` lines 80-81: `df = pd.read_csv(log_path,
skiprows=1)` then `df['r'].mean()`; `none` = an exception raised there. -/
def optuna_existing_log_score (lines : List CsvLine) : Option ℚ :=
  (read_csv_skip1 lines).bind (fun df => (parsedColumn df.1 df.2 "r").map mean)

/-- `grid_search.py` lines 66-73, all inside the `try`: the value bound to
`mean_reward` (`some (some q)` a real score, `some none` = Python `None`
when the log is absent), or outer `none` when reading an existing log
raised (then the `except` branch runs and nothing is appended). -/
def grid_mean_reward (fs : FileSystem) (sp : String) : Option (Option ℚ) :=
  match fs (grid_log_path sp) with
  | none => some none
  | some lines => (grid_existing_log_score lines).map some

/-- The dict appended to `results` in `grid_search.py` lines 75-81. -/
structure TrialRecord where
  damage_interaction_reward : ℚ
  danger_zone_reward : ℚ
  penalize_attack_reward : ℚ
  mean_reward : Option ℚ
  checkpoint : String

deriving instance DecidableEq for TrialRecord

/-- One iteration of the sweep loop body (`grid_search.py` lines 29-83)
under training oracle `train`: `some r` means `r` was appended to
`results`; `none` means the `except` branch ran and nothing was appended. -/
def runGridTrial (train : TrialParams → TrainResult) (p : TrialParams) : Option TrialRecord :=
  match train p with
  | .crash => none
  | .ok fs =>
    (grid_mean_reward fs (save_path p)).map (fun mr =>
      { damage_interaction_reward := p.dmg
        danger_zone_reward := p.dz
        penalize_attack_reward := p.atk
        mean_reward := mr
        checkpoint := save_path p })

/-- The `results` list when the sweep loop has visited every grid point. -/
def gridResults (train : TrialParams → TrainResult) : List TrialRecord :=
  gridTrials.filterMap (runGridTrial train)

/-- The trials whose parameter values were printed by the `except` branch
(`grid_search.py` line 83): exactly the iterations that appended nothing. -/
def gridFailures (train : TrialParams → TrainResult) : List TrialParams :=
  gridTrials.filter (fun p => (runGridTrial train p).isNone)

/-- Line 86: `pd.DataFrame(results).to_csv("gridsearch_results.csv")` — the
persisted flat table holds exactly the `results` records, in order. -/
def gridsearch_results_table (train : TrialParams → TrainResult) : List TrialRecord :=
  gridResults train

/-- A Python comparison key as used on line 89: either `float('-inf')` or
an actual score. -/
inductive PyKey where
  | ninf
  | val (q : ℚ)

deriving instance DecidableEq for PyKey

/-- Strict order on comparison keys (`float('-inf')` below every score). -/
def pyKeyLt : PyKey → PyKey → Bool
  | _, .ninf => false
  | .ninf, .val _ => true
  | .val a, .val b => decide (a < b)

/-- `lambda x: x["mean_reward"] or float('-inf')` (line 89): Python `or`
yields its right operand whenever the left is falsy — on `None` and ALSO on
the float `0.0`. -/
def selKey (mr : Option ℚ) : PyKey :=
  match mr with
  | none => PyKey.ninf
  | some q => if q = 0 then PyKey.ninf else PyKey.val q

/-- CPython `max(iterable, key=k)` scan: keep the current item, replace it
only when a later item's key is strictly greater (so the first maximal item
wins). -/
def pyMaxAux (key : α → PyKey) (acc : α) : List α → α
  | [] => acc
  | y :: ys => pyMaxAux key (if pyKeyLt (key acc) (key y) then y else acc) ys

/-- CPython `max(iterable, key=k)`; `none` models the `ValueError` raised
on an empty iterable. -/
def pyMax (key : α → PyKey) : List α → Option α
  | [] => none
  | x :: xs => some (pyMaxAux key x xs)

/-- Line 89: `best = max(results, key=lambda x: x["mean_reward"] or
float('-inf'))`. -/
def best (train : TrialParams → TrainResult) : Option TrialRecord :=
  pyMax (fun r => selKey r.mean_reward) (gridResults train)

/-- The reward-scoring functions the scripts import from `train_agent` and
reference when building terms; external code, recorded symbolically. -/
inductive RewFunc where
  | danger_zone_reward
  | damage_interaction_reward
  | in_state_reward
  | on_win_reward
  | holding_more_than_3_kets

deriving instance DecidableEq for RewFunc

/-- Values usable in a term's `params` dict; the scripts only ever pass the
external class `AttackState`. -/
inductive ParamVal where
  | attackState

deriving instance DecidableEq for ParamVal

/-- `RewTerm(func=..., weight=..., params=...)` as constructed by the
scripts. -/
structure RewTerm where
  func : RewFunc
  weight : ℚ
  params : List (String × ParamVal)

deriving instance DecidableEq for RewTerm

/-- The two mappings the scripts pass to the external `RewardManager`
constructor: named per-step terms, and named event-triggered terms paired
with the signal name they subscribe to. -/
structure RewardManager where
  step_terms : List (String × RewTerm)
  event_terms : List (String × (String × RewTerm))

/-- The `RewardManager(...)` call of `grid_search.py` lines 31-40 for one
trial's weights. -/
def grid_reward_manager (dmg dz atk : ℚ) : RewardManager :=
  { step_terms :=
      [("danger_zone_reward", { func := .danger_zone_reward, weight := dz, params := [] }),
       ("damage_interaction_reward", { func := .damage_interaction_reward, weight := dmg, params := [] }),
       ("penalize_attack_reward",
        { func := .in_state_reward, weight := atk, params := [("desired_state", .attackState)] })]
    event_terms :=
      [("on_win_reward", ("win_signal", { func := .on_win_reward, weight := 50, params := [] }))] }

/-- The `RewardManager(...)` call of `grid_search_optuna.py` lines 28-45 for
one trial's suggested weights. -/
def optuna_reward_manager (dmg dz atk hold : ℚ) : RewardManager :=
  { step_terms :=
      [("danger_zone_reward", { func := .danger_zone_reward, weight := dz, params := [] }),
       ("damage_interaction_reward", { func := .damage_interaction_reward, weight := dmg, params := [] }),
       ("penalize_attack_reward",
        { func := .in_state_reward, weight := atk, params := [("desired_state", .attackState)] }),
       ("holding_more_than_3_kets",
        { func := .holding_more_than_3_kets, weight := hold, params := [] })]
    event_terms :=
      [("on_win_reward", ("win_signal", { func := .on_win_reward, weight := 50, params := [] }))] }

/-- The data the optuna service hands one `objective` invocation: the
sequential trial number and the four values its `suggest_float` calls
return (`grid_search_optuna.py` lines 22-25). -/
structure OptunaTrial where
  number : Nat
  dmg : ℚ
  dz : ℚ
  atk : ℚ
  hold : ℚ

/-- `save_path = f"checkpoints/optuna_trial_{trial.number}"`
(`grid_search_optuna.py` line 49). -/
def optuna_save_path (n : Nat) : String := "checkpoints/optuna_trial_" ++ toString n

/-- `objective` (`grid_search_optuna.py` lines 16-86) under training oracle
`train`.  Only the `train(...)` call sits inside the `try` (lines 63-75);
the log reading (lines 78-86) is outside it, so `.error` models an
exception propagating out of the objective, `.ok` the returned score. -/
def objective (train : OptunaTrial → TrainResult) (t : OptunaTrial) : Except String ℚ :=
  match train t with
  | .crash => .ok (-999)
  | .ok fs =>
    match fs (optuna_log_path (optuna_save_path t.number)) with
    | none => .ok (-999)
    | some lines =>
      match optuna_existing_log_score lines with
      | none => .error "exception while reading the log"
      | some q => .ok q

/-- A `monitor.csv` whose single episode row has reward `0.0`. -/
def logZero : List CsvLine := [["#preamble"], ["r", "l", "t"], ["0.0", "10", "5"]]

/-- A `monitor.csv` whose single episode row has reward `-1.0`. -/
def logNegOne : List CsvLine := [["#preamble"], ["r", "l", "t"], ["-1.0", "10", "5"]]

/-- A `monitor.csv` whose single episode row has reward `-2.0`. -/
def logNegTwo : List CsvLine := [["#preamble"], ["r", "l", "t"], ["-2.0", "10", "5"]]

/-- A `monitor.csv` whose single episode row has reward `2.0`. -/
def logTwo : List CsvLine := [["#preamble"], ["r", "l", "t"], ["2.0", "10", "5"]]

/-- A file holding only its preamble line: `pd.read_csv(..., skiprows=1)`
raises `EmptyDataError` on it. -/
def logPreambleOnly : List CsvLine := [["#preamble"]]

/-- The empty file system: no trial leaves any log behind. -/
def fsNone : FileSystem := fun _ => none

/-- Grid-sweep training oracle for the zero-versus-negative scenario: the
first grid point's training leaves a log averaging `0.0`, the second's one
averaging `-1.0`, every other trial crashes. -/
def trainZeroVsNegOne : TrialParams → TrainResult := fun p =>
  if p = ⟨0.5, 0.1, -0.1⟩ then
    TrainResult.ok (fun path =>
      if path = grid_log_path (save_path ⟨0.5, 0.1, -0.1⟩) then some logZero else none)
  else if p = ⟨0.5, 0.1, -0.04⟩ then
    TrainResult.ok (fun path =>
      if path = grid_log_path (save_path ⟨0.5, 0.1, -0.04⟩) then some logNegOne else none)
  else TrainResult.crash

/-- Grid-sweep training oracle with recorded scores `0.0` and `-2.0`: the
first grid point's log averages `0.0`, the second's averages `-2.0`, every
other trial crashes. -/
def trainZeroVsNegTwo : TrialParams → TrainResult := fun p =>
  if p = ⟨0.5, 0.1, -0.1⟩ then
    TrainResult.ok (fun path =>
      if path = grid_log_path (save_path ⟨0.5, 0.1, -0.1⟩) then some logZero else none)
  else if p = ⟨0.5, 0.1, -0.04⟩ then
    TrainResult.ok (fun path =>
      if path = grid_log_path (save_path ⟨0.5, 0.1, -0.04⟩) then some logNegTwo else none)
  else TrainResult.crash

/-- Grid-sweep training oracle where the first grid point crashes and every
other trial completes without leaving a log. -/
def trainCrashFirst : TrialParams → TrainResult := fun p =>
  if p = ⟨0.5, 0.1, -0.1⟩ then TrainResult.crash else TrainResult.ok fsNone

/-- Grid-sweep training oracle where every trial completes and no log
exists. -/
def trainAllNoLog : TrialParams → TrainResult := fun _ => TrainResult.ok fsNone

/-- The file system holding one well-formed log, at the first grid point's
checkpoint. -/
def fsLogTwo : FileSystem := fun path =>
  if path = grid_log_path (save_path ⟨0.5, 0.1, -0.1⟩) then some logTwo else none

/-- Grid-sweep training oracle where every trial completes, leaving
`fsLogTwo` behind. -/
def trainOneLog : TrialParams → TrainResult := fun _ => TrainResult.ok fsLogTwo

end AI2

namespace AI2

/-- The strict key order is irreflexive. -/
theorem pyKeyLt_irrefl (k : PyKey) : pyKeyLt k k = false := by
  cases k with
  | ninf => rfl
  | val a => simp [pyKeyLt]

/-- The strict key order is transitive. -/
theorem pyKeyLt_trans {a b c : PyKey} (h1 : pyKeyLt a b = true) (h2 : pyKeyLt b c = true) :
    pyKeyLt a c = true := by
  cases a <;> cases b <;> cases c <;> simp_all [pyKeyLt]
  exact lt_trans h1 h2

/-- From `x` strictly below `y` and `a` not strictly below `y`, `x` is
strictly below `a` (linearity of the key order). -/
theorem pyKeyLt_of_lt_of_not_lt {x y a : PyKey} (h1 : pyKeyLt x y = true)
    (h2 : pyKeyLt a y = false) : pyKeyLt x a = true := by
  cases x <;> cases y <;> cases a <;> simp_all [pyKeyLt]
  exact lt_of_lt_of_le h1 h2

/-- The element `pyMaxAux` keeps is the seed or one of the scanned items. -/
theorem pyMaxAux_mem (key : α → PyKey) (a : α) (l : List α) :
    pyMaxAux key a l = a ∨ pyMaxAux key a l ∈ l := by
  induction l generalizing a with
  | nil => exact Or.inl rfl
  | cons y ys ih =>
    simp only [pyMaxAux]
    rcases ih (if pyKeyLt (key a) (key y) then y else a) with h | h
    · rw [h]
      by_cases hc : pyKeyLt (key a) (key y) = true
      · exact Or.inr (by simp [hc])
      · exact Or.inl (by simp [hc])
    · exact Or.inr (List.mem_cons_of_mem y h)

/-- No seed or scanned item has a key strictly above the kept element's. -/
theorem pyMaxAux_not_lt (key : α → PyKey) (a : α) (l : List α) :
    ∀ b, b = a ∨ b ∈ l → pyKeyLt (key (pyMaxAux key a l)) (key b) = false := by
  induction l generalizing a with
  | nil =>
    intro b hb
    rcases hb with rfl | h
    · exact pyKeyLt_irrefl _
    · cases h
  | cons y ys ih =>
    intro b hb
    simp only [pyMaxAux]
    rcases hb with rfl | hb'
    · by_cases hc : pyKeyLt (key b) (key y) = true
      · rw [if_pos hc]
        cases hres : pyKeyLt (key (pyMaxAux key y ys)) (key b) with
        | false => rfl
        | true =>
          have hyy := pyKeyLt_trans hres hc
          rw [ih y y (Or.inl rfl)] at hyy
          cases hyy
      · rw [if_neg hc]
        exact ih b b (Or.inl rfl)
    · rcases List.mem_cons.mp hb' with rfl | hbys
      · by_cases hc : pyKeyLt (key a) (key b) = true
        · rw [if_pos hc]
          exact ih b b (Or.inl rfl)
        · rw [if_neg hc]
          cases hres : pyKeyLt (key (pyMaxAux key a ys)) (key b) with
          | false => rfl
          | true =>
            have hna : pyKeyLt (key (pyMaxAux key a ys)) (key a) = false :=
              ih a a (Or.inl rfl)
            have : pyKeyLt (key (pyMaxAux key a ys)) (key a) = true :=
              pyKeyLt_of_lt_of_not_lt hres (Bool.eq_false_iff.mpr hc)
            rw [hna] at this
            cases this
      · by_cases hc : pyKeyLt (key a) (key y) = true
        · rw [if_pos hc]; exact ih y b (Or.inr hbys)
        · rw [if_neg hc]; exact ih a b (Or.inr hbys)

/-- `max(l, key=k)` returns a member of `l` no member of which compares
strictly above it. -/
theorem pyMax_spec {key : α → PyKey} {l : List α} {b : α} (h : pyMax key l = some b) :
    b ∈ l ∧ ∀ x ∈ l, pyKeyLt (key b) (key x) = false := by
  cases l with
  | nil => cases h
  | cons x xs =>
    have hb : b = pyMaxAux key x xs := by
      simpa [pyMax] using h.symm
    constructor
    · rcases pyMaxAux_mem key x xs with hm | hm
      · rw [hb, hm]; exact List.mem_cons_self x xs
      · rw [hb]; exact List.mem_cons_of_mem x hm
    · intro c hc
      rw [hb]
      rcases List.mem_cons.mp hc with rfl | hcs
      · exact pyMaxAux_not_lt key c xs c (Or.inl rfl)
      · exact pyMaxAux_not_lt key x xs c (Or.inr hcs)

/-- Inversion of the selection key: a non-bottom key comes from an actual,
non-zero recorded score. -/
theorem selKey_eq_val {mr : Option ℚ} {q : ℚ} (h : selKey mr = PyKey.val q) :
    mr = some q ∧ q ≠ 0 := by
  cases mr with
  | none => cases h
  | some x =>
    simp only [selKey] at h
    by_cases hx : x = 0
    · rw [if_pos hx] at h; cases h
    · rw [if_neg hx] at h
      injection h with h
      subst h
      exact ⟨rfl, hx⟩

/-- The selection key of a non-null non-zero score is that score. -/
theorem selKey_some_ne {q : ℚ} (hq : q ≠ 0) : selKey (some q) = PyKey.val q := by
  simp [selKey, hq]

/-- A record appended by one loop iteration carries that trial's checkpoint
path. -/
theorem runGridTrial_checkpoint {train : TrialParams → TrainResult} {q : TrialParams}
    {r : TrialRecord} (h : runGridTrial train q = some r) :
    r.checkpoint = save_path q := by
  cases htr : train q with
  | crash => simp [runGridTrial, htr] at h
  | ok fs =>
    simp only [runGridTrial, htr] at h
    rcases Option.map_eq_some'.mp h with ⟨mr, hmr, hr⟩
    rw [← hr]

/-- The eight grid checkpoint paths are pairwise distinct. -/
theorem save_path_nodup : (gridTrials.map save_path).Nodup := by decide

end AI2

/-- C5: the declared two-value-per-dimension search space yields exactly 8
trials, enumerated with damage outermost, danger-zone middle and
attack-penalty innermost, and the 8 checkpoint paths are pairwise distinct
and literally embed each trial's three parameter values. -/
theorem C5_grid_enumeration :
    AI2.gridTrials =
      [⟨0.5, 0.1, -0.1⟩, ⟨0.5, 0.1, -0.04⟩, ⟨0.5, 0.5, -0.1⟩, ⟨0.5, 0.5, -0.04⟩,
       ⟨1.0, 0.1, -0.1⟩, ⟨1.0, 0.1, -0.04⟩, ⟨1.0, 0.5, -0.1⟩, ⟨1.0, 0.5, -0.04⟩] ∧
    AI2.gridTrials.length = 8 ∧
    (AI2.gridTrials.map AI2.save_path).Nodup ∧
    ∀ p ∈ AI2.gridTrials,
      (AI2.pyFloatRepr p.dmg).data <:+: (AI2.save_path p).data ∧
      (AI2.pyFloatRepr p.dz).data <:+: (AI2.save_path p).data ∧
      (AI2.pyFloatRepr p.atk).data <:+: (AI2.save_path p).data := by
  decide

/-- C10: in both variants the event-triggered term mapping handed to the
`RewardManager` constructor is identical and constant across trials:
exactly one term named `on_win_reward`, keyed to the `win_signal` event,
with fixed weight 50, whatever the swept per-step weights are. -/
theorem C10_event_terms_constant (dmg dz atk hold : ℚ) :
    (AI2.grid_reward_manager dmg dz atk).event_terms =
      [("on_win_reward", ("win_signal",
        { func := AI2.RewFunc.on_win_reward, weight := 50, params := [] }))] ∧
    (AI2.optuna_reward_manager dmg dz atk hold).event_terms =
      [("on_win_reward", ("win_signal",
        { func := AI2.RewFunc.on_win_reward, weight := 50, params := [] }))] :=
  ⟨rfl, rfl⟩

/-- C6: both variants read the trial's log at `<checkpoint_dir>/monitor.csv`,
skip exactly one preamble line, and take the arithmetic mean of the parsed
`r` column — the grid script's computation and the optuna script's are the
same function, and on a file of shape preamble-then-header-then-rows it is
the mean of the `r` column. -/
theorem C6_identical_log_processing :
    (∀ sp, AI2.grid_log_path sp = AI2.optuna_log_path sp) ∧
    (∀ sp, AI2.grid_log_path sp = sp ++ "/monitor.csv") ∧
    (∀ lines, AI2.grid_existing_log_score lines = AI2.optuna_existing_log_score lines) ∧
    (∀ pre header rows, AI2.grid_existing_log_score (pre :: header :: rows) =
      (AI2.parsedColumn header rows "r").map AI2.mean) :=
  ⟨fun _ => rfl, fun _ => rfl, fun _ => rfl, fun _ _ _ => rfl⟩

/-- C2: in the guided-search objective, a training call that raises returns
the sentinel score `-999`, and a completed training whose per-trial log file
is absent returns the very same sentinel `-999`. -/
theorem C2_objective_sentinel (train : AI2.OptunaTrial → AI2.TrainResult)
    (t : AI2.OptunaTrial) :
    (train t = AI2.TrainResult.crash → AI2.objective train t = Except.ok (-999)) ∧
    (∀ fs, train t = AI2.TrainResult.ok fs →
      fs (AI2.optuna_log_path (AI2.optuna_save_path t.number)) = none →
      AI2.objective train t = Except.ok (-999)) := by
  constructor
  · intro h
    simp [AI2.objective, h]
  · intro fs h hfs
    simp [AI2.objective, h, hfs]

/-- Witness for C2 at trial number 0 with unit weights: a crashing oracle
and a log-less oracle both produce the sentinel. -/
theorem C2_objective_sentinel_witness :
    AI2.objective (fun _ => AI2.TrainResult.crash) ⟨0, 1, 1, 1, 1⟩ = Except.ok (-999) ∧
    AI2.objective (fun _ => AI2.TrainResult.ok (fun _ => none)) ⟨0, 1, 1, 1, 1⟩ =
      Except.ok (-999) :=
  ⟨(C2_objective_sentinel (fun _ => AI2.TrainResult.crash) ⟨0, 1, 1, 1, 1⟩).1 rfl,
   (C2_objective_sentinel (fun _ => AI2.TrainResult.ok (fun _ => none)) ⟨0, 1, 1, 1, 1⟩).2
     (fun _ => none) rfl rfl⟩

/-- C9: if the training call of every grid trial raises, the `results` list
is empty when the sweep ends, and `max` over it raises `ValueError` (the
selection yields no trial), so the driver does not terminate normally. -/
theorem C9_all_crash_selection_raises (train : AI2.TrialParams → AI2.TrainResult)
    (h : ∀ p ∈ AI2.gridTrials, train p = AI2.TrainResult.crash) :
    AI2.gridResults train = [] ∧ AI2.best train = none := by
  have hres : AI2.gridResults train = [] := by
    apply List.filterMap_eq_nil_iff.mpr
    intro p hp
    simp [AI2.runGridTrial, h p hp]
  refine ⟨hres, ?_⟩
  unfold AI2.best
  rw [hres]
  rfl

/-- Witness for C9: the everywhere-crashing training oracle. -/
theorem C9_all_crash_selection_raises_witness :
    AI2.gridResults (fun _ => AI2.TrainResult.crash) = [] ∧
    AI2.best (fun _ => AI2.TrainResult.crash) = none :=
  C9_all_crash_selection_raises (fun _ => AI2.TrainResult.crash) (fun _ _ => rfl)

/-- C8: the falsy-coalescing selection key maps a recorded score of exactly
`0.0` to `float('-inf')`, so for the result set with scores `0.0` and
`-1.0` the reported best trial is the negative-score one. -/
theorem C8_zero_score_loses_to_negative :
    AI2.selKey (some 0) = AI2.PyKey.ninf ∧
    (∃ r ∈ AI2.gridResults AI2.trainZeroVsNegOne, r.mean_reward = some 0) ∧
    (AI2.best AI2.trainZeroVsNegOne).map AI2.TrialRecord.mean_reward = some (some (-1)) := by
  decide

/-- C1 counterexample: under `trainZeroVsNegTwo` the result set records the
non-null scores `0.0` and `-2.0`, yet the reported best trial's score is
`-2.0` although `-2.0 < 0.0` — refuting the claim that, given at least one
non-null score, the best trial has the maximum score among all non-null
entries with only null scores sent to negative infinity. -/
theorem C1_counterexample :
    (∃ r ∈ AI2.gridResults AI2.trainZeroVsNegTwo, r.mean_reward = some 0) ∧
    (AI2.best AI2.trainZeroVsNegTwo).map AI2.TrialRecord.mean_reward = some (some (-2)) ∧
    ((-2 : ℚ) < 0) := by
  decide

/-- C1 (amended): after all combinations complete the full result set is
persisted as the flat table, and the selection maximizes the key that sends
a null/missing score AND a score of exactly `0.0` to negative infinity:
given at least one recorded trial with a non-null non-zero score, the
reported best trial has a non-null non-zero score that is maximal among
all non-null non-zero entries. -/
theorem C1_best_selection_amended (train : AI2.TrialParams → AI2.TrainResult)
    (r0 : AI2.TrialRecord) (q0 : ℚ) (hr0 : r0 ∈ AI2.gridResults train)
    (hq0 : r0.mean_reward = some q0) (hq0ne : q0 ≠ 0) :
    AI2.gridsearch_results_table train = AI2.gridResults train ∧
    ∃ b qb, AI2.best train = some b ∧ b ∈ AI2.gridResults train ∧
      b.mean_reward = some qb ∧ qb ≠ 0 ∧
      ∀ r ∈ AI2.gridResults train, ∀ q : ℚ, r.mean_reward = some q → q ≠ 0 → q ≤ qb := by
  refine ⟨rfl, ?_⟩
  cases hbest : AI2.best train with
  | none =>
    exfalso
    unfold AI2.best at hbest
    cases hres : AI2.gridResults train with
    | nil => rw [hres] at hr0; cases hr0
    | cons x xs => rw [hres] at hbest; cases hbest
  | some b =>
    have hb' : AI2.pyMax (fun r => AI2.selKey r.mean_reward) (AI2.gridResults train) = some b :=
      hbest
    have hspec := AI2.pyMax_spec hb'
    have hk0 : AI2.selKey r0.mean_reward = AI2.PyKey.val q0 := by
      rw [hq0]; exact AI2.selKey_some_ne hq0ne
    cases hkb : AI2.selKey b.mean_reward with
    | ninf =>
      exfalso
      have hle := hspec.2 r0 hr0
      rw [hkb, hk0] at hle
      cases hle
    | val qb =>
      rcases AI2.selKey_eq_val hkb with ⟨hbm, hbne⟩
      refine ⟨b, qb, rfl, hspec.1, hbm, hbne, ?_⟩
      intro r hr q hq hqne
      have hkr : AI2.selKey r.mean_reward = AI2.PyKey.val q := by
        rw [hq]; exact AI2.selKey_some_ne hqne
      have hle := hspec.2 r hr
      rw [hkb, hkr] at hle
      simp only [AI2.pyKeyLt, decide_eq_false_iff_not] at hle
      exact le_of_not_lt hle

/-- Witness for the amended C1 under `trainZeroVsNegTwo`, instantiated at
the recorded trial whose score is `-2.0`. -/
theorem C1_best_selection_amended_witness :
    AI2.gridsearch_results_table AI2.trainZeroVsNegTwo = AI2.gridResults AI2.trainZeroVsNegTwo ∧
    ∃ b qb, AI2.best AI2.trainZeroVsNegTwo = some b ∧
      b ∈ AI2.gridResults AI2.trainZeroVsNegTwo ∧
      b.mean_reward = some qb ∧ qb ≠ 0 ∧
      ∀ r ∈ AI2.gridResults AI2.trainZeroVsNegTwo, ∀ q : ℚ,
        r.mean_reward = some q → q ≠ 0 → q ≤ qb :=
  C1_best_selection_amended AI2.trainZeroVsNegTwo
    { damage_interaction_reward := 0.5, danger_zone_reward := 0.1,
      penalize_attack_reward := -0.04, mean_reward := some (-2),
      checkpoint := AI2.save_path ⟨0.5, 0.1, -0.04⟩ }
    (-2) (by decide) rfl (by decide)

/-- C3: a grid trial whose training call raises is caught: its parameter
values are printed by the `except` branch, no record with its checkpoint
enters the result set, and every other completing iteration still appends
its record — the sweep continues. -/
theorem C3_crash_excluded_sweep_continues (train : AI2.TrialParams → AI2.TrainResult)
    (p : AI2.TrialParams) (hp : p ∈ AI2.gridTrials)
    (hcrash : train p = AI2.TrainResult.crash) :
    p ∈ AI2.gridFailures train ∧
    (∀ r ∈ AI2.gridResults train, r.checkpoint ≠ AI2.save_path p) ∧
    (∀ q ∈ AI2.gridTrials, ∀ rec, AI2.runGridTrial train q = some rec →
      rec ∈ AI2.gridResults train) := by
  refine ⟨?_, ?_, ?_⟩
  · apply List.mem_filter.mpr
    refine ⟨hp, ?_⟩
    simp [AI2.runGridTrial, hcrash]
  · intro r hr hcontra
    rcases List.mem_filterMap.mp hr with ⟨q, hq, hrun⟩
    have hcq : r.checkpoint = AI2.save_path q := AI2.runGridTrial_checkpoint hrun
    have hqp : q = p := by
      apply List.inj_on_of_nodup_map AI2.save_path_nodup hq hp
      rw [← hcq, hcontra]
    rw [hqp] at hrun
    simp [AI2.runGridTrial, hcrash] at hrun
  · intro q hq rec hrun
    exact List.mem_filterMap.mpr ⟨q, hq, hrun⟩

/-- Witness for C3: the oracle crashing exactly the first grid point. -/
theorem C3_crash_excluded_sweep_continues_witness :
    (⟨0.5, 0.1, -0.1⟩ : AI2.TrialParams) ∈ AI2.gridFailures AI2.trainCrashFirst ∧
    (∀ r ∈ AI2.gridResults AI2.trainCrashFirst,
      r.checkpoint ≠ AI2.save_path ⟨0.5, 0.1, -0.1⟩) ∧
    (∀ q ∈ AI2.gridTrials, ∀ rec, AI2.runGridTrial AI2.trainCrashFirst q = some rec →
      rec ∈ AI2.gridResults AI2.trainCrashFirst) :=
  C3_crash_excluded_sweep_continues AI2.trainCrashFirst ⟨0.5, 0.1, -0.1⟩ (by decide) rfl

/-- C4: a grid trial whose training call completes is always recorded: if
the log file is absent its record carries a null score, and if a log of
shape preamble-header-rows with an `r` column exists its record's score is
the arithmetic mean of that column's parsed entries. -/
theorem C4_completed_trial_recorded (train : AI2.TrialParams → AI2.TrainResult)
    (p : AI2.TrialParams) (fs : AI2.FileSystem) (hp : p ∈ AI2.gridTrials)
    (hok : train p = AI2.TrainResult.ok fs) :
    (fs (AI2.grid_log_path (AI2.save_path p)) = none →
      ({ damage_interaction_reward := p.dmg, danger_zone_reward := p.dz,
         penalize_attack_reward := p.atk, mean_reward := none,
         checkpoint := AI2.save_path p } : AI2.TrialRecord) ∈ AI2.gridResults train) ∧
    (∀ pre header rows vals,
      fs (AI2.grid_log_path (AI2.save_path p)) = some (pre :: header :: rows) →
      AI2.parsedColumn header rows "r" = some vals →
      ({ damage_interaction_reward := p.dmg, danger_zone_reward := p.dz,
         penalize_attack_reward := p.atk, mean_reward := some (AI2.mean vals),
         checkpoint := AI2.save_path p } : AI2.TrialRecord) ∈ AI2.gridResults train) := by
  constructor
  · intro hfs
    apply List.mem_filterMap.mpr
    refine ⟨p, hp, ?_⟩
    simp [AI2.runGridTrial, hok, AI2.grid_mean_reward, hfs]
  · intro pre header rows vals hfs hcol
    apply List.mem_filterMap.mpr
    refine ⟨p, hp, ?_⟩
    simp [AI2.runGridTrial, hok, AI2.grid_mean_reward, hfs,
      AI2.grid_existing_log_score, AI2.read_csv_skip1, hcol]

/-- Witness for C4: a log-less completing trial is recorded with a null
score, and a trial with a one-episode log of reward `2.0` is recorded with
that mean. -/
theorem C4_completed_trial_recorded_witness :
    ({ damage_interaction_reward := 0.5, danger_zone_reward := 0.1,
       penalize_attack_reward := -0.1, mean_reward := none,
       checkpoint := AI2.save_path ⟨0.5, 0.1, -0.1⟩ } : AI2.TrialRecord) ∈
      AI2.gridResults AI2.trainAllNoLog ∧
    ({ damage_interaction_reward := 0.5, danger_zone_reward := 0.1,
       penalize_attack_reward := -0.1, mean_reward := some (AI2.mean [2]),
       checkpoint := AI2.save_path ⟨0.5, 0.1, -0.1⟩ } : AI2.TrialRecord) ∈
      AI2.gridResults AI2.trainOneLog :=
  ⟨(C4_completed_trial_recorded AI2.trainAllNoLog ⟨0.5, 0.1, -0.1⟩ AI2.fsNone
      (by decide) rfl).1 rfl,
   (C4_completed_trial_recorded AI2.trainOneLog ⟨0.5, 0.1, -0.1⟩ AI2.fsLogTwo
      (by decide) rfl).2
     ["#preamble"] ["r", "l", "t"] [["2.0", "10", "5"]] [2] (by decide) (by decide)⟩

/-- C7 counterexample: a guided-variant trial whose training completes but
whose existing log holds only its preamble makes `pd.read_csv` raise
OUTSIDE the `try`, so the failure propagates out of the objective function
(the `.error` outcome) instead of being caught at the trial boundary. -/
theorem C7_counterexample :
    AI2.objective (fun _ => AI2.TrainResult.ok (fun _ => some AI2.logPreambleOnly))
      ⟨0, 1, 1, 1, 1⟩ = Except.error "exception while reading the log" := rfl

/-- C7 (amended): in the grid sweep every iteration is attempted and ends
recorded or logged-and-skipped, never aborting the sweep; in the guided
variant a training-call failure and a missing log are caught and scored
with the sentinel, but an exception raised while reading an existing log
escapes the objective function. -/
theorem C7_failures_caught_amended :
    (∀ train, ∀ p ∈ AI2.gridTrials,
      (∃ r, AI2.runGridTrial train p = some r ∧ r ∈ AI2.gridResults train) ∨
      p ∈ AI2.gridFailures train) ∧
    (∀ train t, train t = AI2.TrainResult.crash →
      AI2.objective train t = Except.ok (-999)) ∧
    (∀ train t fs, train t = AI2.TrainResult.ok fs →
      fs (AI2.optuna_log_path (AI2.optuna_save_path t.number)) = none →
      AI2.objective train t = Except.ok (-999)) ∧
    (∀ train t fs lines, train t = AI2.TrainResult.ok fs →
      fs (AI2.optuna_log_path (AI2.optuna_save_path t.number)) = some lines →
      AI2.optuna_existing_log_score lines = none →
      AI2.objective train t = Except.error "exception while reading the log") := by
  refine ⟨?_, ?_, ?_, ?_⟩
  · intro train p hp
    cases hrun : AI2.runGridTrial train p with
    | some r => exact Or.inl ⟨r, rfl, List.mem_filterMap.mpr ⟨p, hp, hrun⟩⟩
    | none => exact Or.inr (List.mem_filter.mpr ⟨hp, by simp [hrun]⟩)
  · intro train t h
    simp [AI2.objective, h]
  · intro train t fs h hfs
    simp [AI2.objective, h, hfs]
  · intro train t fs lines h hfs hscore
    simp [AI2.objective, h, hfs, hscore]

/-- Witness for the amended C7: each branch at a concrete oracle. -/
theorem C7_failures_caught_amended_witness :
    ((∃ r, AI2.runGridTrial AI2.trainAllNoLog ⟨0.5, 0.1, -0.1⟩ = some r ∧
        r ∈ AI2.gridResults AI2.trainAllNoLog) ∨
      (⟨0.5, 0.1, -0.1⟩ : AI2.TrialParams) ∈ AI2.gridFailures AI2.trainAllNoLog) ∧
    AI2.objective (fun _ => AI2.TrainResult.crash) ⟨1, 1, 1, 1, 1⟩ = Except.ok (-999) ∧
    AI2.objective (fun _ => AI2.TrainResult.ok AI2.fsNone) ⟨1, 1, 1, 1, 1⟩ =
      Except.ok (-999) ∧
    AI2.objective (fun _ => AI2.TrainResult.ok (fun _ => some AI2.logPreambleOnly))
      ⟨1, 1, 1, 1, 1⟩ = Except.error "exception while reading the log" :=
  ⟨C7_failures_caught_amended.1 AI2.trainAllNoLog ⟨0.5, 0.1, -0.1⟩ (by decide),
   C7_failures_caught_amended.2.1 (fun _ => AI2.TrainResult.crash) ⟨1, 1, 1, 1, 1⟩ rfl,
   C7_failures_caught_amended.2.2.1 (fun _ => AI2.TrainResult.ok AI2.fsNone)
     ⟨1, 1, 1, 1, 1⟩ AI2.fsNone rfl rfl,
   C7_failures_caught_amended.2.2.2
     (fun _ => AI2.TrainResult.ok (fun _ => some AI2.logPreambleOnly))
     ⟨1, 1, 1, 1, 1⟩ (fun _ => some AI2.logPreambleOnly) AI2.logPreambleOnly rfl rfl rfl⟩
